import Mathlib

/-!
Verification of the fetch-classify-aggregate pipeline of
`streamlit_app.py` (TikTok account value analysis tool).

The definitions below are shallow embeddings of the Python source:
pure functions become Lean functions over `ℕ`/`ℚ`/`String`; the
external HTTP layer is modelled by explicit response values passed in;
Python `dict.get` with a default becomes `Option.getD`; the module-level
`user_info_cache` dict becomes an explicit association list threaded
through the fetch functions.  Real-valued arithmetic of the source is
modelled exactly over `ℚ`.
-/

namespace AccountAnalysis

/-- Per-post throttling verdict: 明确限流 / 疑似限流 / 正常. -/
inductive ThrottleVerdict where
  | suppressed
  | suspected
  | normal
deriving DecidableEq, Repr

/-- Embeds `total_engagement = like_count + comment_count + collect_count`
from `classify_throttling`. -/
def total_engagement (like comment collect : ℕ) : ℕ := like + comment + collect

/-- Embeds `engagement_rate = total_engagement / max(play_count, 1)`
from `classify_throttling` (exact rational arithmetic). -/
def engagement_rate (play eng : ℕ) : ℚ := (eng : ℚ) / ((max play 1 : ℕ) : ℚ)

/-- Embeds `classify_throttling` (src/streamlit_app.py lines 248-277):
`CLEAR_THROTTLING_THRESHOLD = 10`, `SUSPECTED_THROTTLING_THRESHOLD = 50`,
`MIN_ENGAGEMENT_RATE = 0.001`; the third branch compares against
`MIN_ENGAGEMENT_RATE * 0.1`. -/
def classify_throttling (play like comment collect : ℕ) : ThrottleVerdict :=
  let e := total_engagement like comment collect
  let r := engagement_rate play e
  if play ≤ 10 ∧ e ≤ 5 then .suppressed
  else if play ≤ 50 then
    if r < (0.001 : ℚ) then .suspected else .normal
  else if 50 < play ∧ r < (0.001 : ℚ) * (0.1 : ℚ) then .suspected
  else .normal

/-- Restates the classifier from the specification's words (§4.4 of the
spec / claim C1): first-matching-rule precedence with flat guards, and
the third guard written with the constant `0.0001`. -/
def classifySpecC1 (play like comment collect : ℕ) : ThrottleVerdict :=
  let e := total_engagement like comment collect
  let r := engagement_rate play e
  if play ≤ 10 ∧ e ≤ 5 then .suppressed
  else if play ≤ 50 ∧ r < (0.001 : ℚ) then .suspected
  else if 50 < play ∧ r < (0.0001 : ℚ) then .suspected
  else .normal

/-- Account-level risk tier: 高风险 / 中风险 / 低风险. -/
inductive RiskLevel where
  | high
  | medium
  | low
deriving DecidableEq, Repr

/-- Count of posts with a given verdict (the `value_counts().get(...)`
lookups in `generate_account_throttling_list`). -/
def count_verdict (vs : List ThrottleVerdict) (v : ThrottleVerdict) : ℕ :=
  (vs.filter (fun x => x = v)).length

/-- Embeds the status / risk-level decision inside
`generate_account_throttling_list` (src/streamlit_app.py lines 313-330):
`ACCOUNT_CLEAR_THROTTLING_THRESHOLD = 0.6`,
`ACCOUNT_SUSPECTED_THROTTLING_THRESHOLD = 0.4`,
`ACCOUNT_TOTAL_THROTTLING_THRESHOLD = 0.5`. -/
def account_throttling_status (vs : List ThrottleVerdict) : ThrottleVerdict × RiskLevel :=
  let n : ℚ := (vs.length : ℚ)
  let clear_rate := (count_verdict vs .suppressed : ℚ) / n
  let suspected_rate := (count_verdict vs .suspected : ℚ) / n
  let total_rate := ((count_verdict vs .suppressed + count_verdict vs .suspected : ℕ) : ℚ) / n
  if clear_rate ≥ (0.6 : ℚ) then (.suppressed, .high)
  else if total_rate ≥ (0.5 : ℚ) then (.suspected, .medium)
  else if suspected_rate ≥ (0.4 : ℚ) then (.suspected, .medium)
  else (.normal, .low)

/-- Restates the account roll-up from the specification's words
(§4.4 of the spec / claim C2): the two middle guards merged by `∨`. -/
def classifyAccountSpecC2 (vs : List ThrottleVerdict) : ThrottleVerdict × RiskLevel :=
  let n : ℚ := (vs.length : ℚ)
  let suppressedRate := (count_verdict vs .suppressed : ℚ) / n
  let suspectedRate := (count_verdict vs .suspected : ℚ) / n
  let totalThrottleRate := ((count_verdict vs .suppressed + count_verdict vs .suspected : ℕ) : ℚ) / n
  if suppressedRate ≥ (0.6 : ℚ) then (.suppressed, .high)
  else if totalThrottleRate ≥ (0.5 : ℚ) ∨ suspectedRate ≥ (0.4 : ℚ) then (.suspected, .medium)
  else (.normal, .low)

/-- Claim C1: the post-level classifier, with engagement = like+comment+collect
and rate = engagement / max(playCount, 1), returns Suppressed iff
playCount ≤ 10 and engagement ≤ 5; else Suspected iff playCount ≤ 50 and
rate < 0.001; else Suspected iff playCount > 50 and rate < 0.0001; else
Normal, with first-matching-rule precedence; in particular
classify(10,0,0,5) = Suppressed and classify(11,0,0,5) is not Suppressed. -/
theorem classify_throttling_spec :
    (∀ play like comment collect : ℕ,
      classify_throttling play like comment collect =
        classifySpecC1 play like comment collect) ∧
    classify_throttling 10 0 0 5 = ThrottleVerdict.suppressed ∧
    classify_throttling 11 0 0 5 ≠ ThrottleVerdict.suppressed := by
  have hconst : (0.001 : ℚ) * (0.1 : ℚ) = (0.0001 : ℚ) := by norm_num
  refine ⟨?_, ?_, ?_⟩
  · intro play like comment collect
    simp only [classify_throttling, classifySpecC1, hconst]
    split_ifs <;> first | rfl | omega | tauto
  · norm_num [classify_throttling, total_engagement, engagement_rate]
  · norm_num [classify_throttling, total_engagement, engagement_rate]
    decide

/-- Claim C2: for every non-empty verdict list, the account-level roll-up
returns (Suppressed, High) iff suppressedRate ≥ 0.6; else (Suspected,
Medium) iff totalThrottleRate ≥ 0.5 or suspectedRate ≥ 0.4; else
(Normal, Low); in particular 6 Suppressed, 2 Suspected, 2 Normal out of
10 yields (Suppressed, High). -/
theorem account_throttling_status_spec :
    (∀ vs : List ThrottleVerdict, vs ≠ [] →
      account_throttling_status vs = classifyAccountSpecC2 vs) ∧
    account_throttling_status
      [ThrottleVerdict.suppressed, ThrottleVerdict.suppressed, ThrottleVerdict.suppressed,
       ThrottleVerdict.suppressed, ThrottleVerdict.suppressed, ThrottleVerdict.suppressed,
       ThrottleVerdict.suspected, ThrottleVerdict.suspected,
       ThrottleVerdict.normal, ThrottleVerdict.normal] =
      (ThrottleVerdict.suppressed, RiskLevel.high) := by
  constructor
  · intro vs _
    simp only [account_throttling_status, classifyAccountSpecC2]
    split_ifs <;> first | rfl | tauto
  · have h1 : count_verdict
        [ThrottleVerdict.suppressed, ThrottleVerdict.suppressed, ThrottleVerdict.suppressed,
         ThrottleVerdict.suppressed, ThrottleVerdict.suppressed, ThrottleVerdict.suppressed,
         ThrottleVerdict.suspected, ThrottleVerdict.suspected,
         ThrottleVerdict.normal, ThrottleVerdict.normal] ThrottleVerdict.suppressed = 6 := rfl
    norm_num [account_throttling_status, h1]

/-- Concrete instantiation of `account_throttling_status_spec` at a
one-element list, discharging the non-emptiness hypothesis. -/
theorem account_throttling_status_spec_witness :
    ([ThrottleVerdict.suppressed] ≠ ([] : List ThrottleVerdict)) ∧
    account_throttling_status [ThrottleVerdict.suppressed] =
      classifyAccountSpecC2 [ThrottleVerdict.suppressed] :=
  ⟨by decide, account_throttling_status_spec.1 [ThrottleVerdict.suppressed] (by decide)⟩

/-! ## Profile fetch and the response cache

`user_info_cache` is a module-level Python dict guarded by `cache_lock`;
we model the backing map as an association list (most recent insertion
first, which matches dict lookup because keys are unique per insertion
site).  `fetch_user_info` consults the cache first and stores a freshly
parsed profile on success.  Crucially, the dict stores **no timestamps**:
the read path (lines 62-66) is a plain key lookup. -/

/-- Result row of `fetch_user_info`: 昵称 / 头像 / 关注数 / 粉丝数 /
获赞数 / 总视频数. -/
structure ProfileInfo where
  nickname : String
  avatar : String
  followingCount : ℕ
  followerCount : ℕ
  heartCount : ℕ
  videoCount : ℕ
deriving DecidableEq, Repr

/-- Backing map of `user_info_cache`. -/
abbrev Cache := List (String × ProfileInfo)

/-- Embeds the read path `if username in user_info_cache: return
user_info_cache[username]`. -/
def cacheGet (c : Cache) (u : String) : Option ProfileInfo :=
  (c.find? (fun e => e.1 == u)).map Prod.snd

/-- Embeds the write path `user_info_cache[username] = result`. -/
def cachePut (c : Cache) (u : String) (p : ProfileInfo) : Cache :=
  (u, p) :: c

/-- JSON payload of `/api/user/info` on a successful exchange:
the `user` and `stats` sub-objects, each field optional (Python
`dict.get` with a default). -/
structure InfoData where
  nickname : Option String
  avatarMedium : Option String
  avatarThumb : Option String
  followingCount : Option ℕ
  followerCount : Option ℕ
  heartCount : Option ℕ
  heart : Option ℕ
  videoCount : Option ℕ
deriving Repr

/-- Outcome of the single `requests.get` in `fetch_user_info`:
either some exception (timeout, connection failure, JSON parse error —
all caught by the same `except`) or a parsed body with its `code` and
optional `data` block. -/
inductive InfoResponse where
  | exn
  | api (code : ℤ) (data : Option InfoData)
deriving Repr

/-- The all-zero fallback row built by both error branches of
`fetch_user_info` (API error and network error). -/
def errorProfile (u : String) : ProfileInfo :=
  ⟨u, "", 0, 0, 0, 0⟩

/-- Embeds `fetch_user_info` (src/streamlit_app.py lines 59-115): cache
check, then parse on `code == 0 and "data" in data`, else the all-zero
row; a successful parse is stored in the cache. -/
def fetch_user_info (cache : Cache) (u : String) (resp : InfoResponse) :
    ProfileInfo × Cache :=
  match cacheGet cache u with
  | some r => (r, cache)
  | none =>
    match resp with
    | .api 0 (some d) =>
      let r : ProfileInfo :=
        ⟨d.nickname.getD "",
         d.avatarMedium.getD (d.avatarThumb.getD ""),
         d.followingCount.getD 0,
         d.followerCount.getD 0,
         d.heartCount.getD (d.heart.getD 0),
         d.videoCount.getD 0⟩
      (r, cachePut cache u r)
    | _ => (errorProfile u, cache)

/-- A concrete cached profile used to exhibit the missing TTL. -/
def staleProfile : ProfileInfo :=
  ⟨"Alice", "http://a/avatar", 10, 20, 30, 40⟩

/-- Claim C3 (code bug): the spec says a cache `get` more than 300
seconds after the `put` must miss and force a fresh fetch.  The
in-pipeline cache `user_info_cache` stores no timestamps and its read
path never consults a clock, so after a `put` the `get` hits whatever
the current API would answer — i.e. after any elapsed time, including
301 seconds — and no fresh fetch happens.  (The 5-minute TTL exists only
on `fetch_user_info_cached`, which no pipeline code calls.) -/
theorem cache_get_ignores_elapsed_time :
    ∀ resp : InfoResponse,
      (fetch_user_info (cachePut [] "alice" staleProfile) "alice" resp).1 =
        staleProfile ∧
      (fetch_user_info (cachePut [] "alice" staleProfile) "alice" resp).2 =
        cachePut [] "alice" staleProfile := by
  intro resp
  constructor <;> rfl

/-! ## Post fetch with retry

`fetch_user_videos` issues up to `max_retries + 1` HTTP requests.  We
model the outcome of the `i`-th request by `attempts i`; each outcome is
either one of the three caught exception classes or a completed HTTP
exchange carrying the status code and the parsed body.  The result also
counts requests issued, `time.sleep(1)` backoffs, and `fetch_user_info`
calls, so that retry and round-trip claims can be stated. -/

/-- The `author` sub-object of a video (`video.get("author", {})`);
every field optional. -/
structure Author where
  nickname : Option String
  avatar : Option String
  follower_count : Option ℕ
  following_count : Option ℕ
  heart_count : Option ℕ
  aweme_count : Option ℕ
deriving DecidableEq, Repr

/-- The empty dict default of `video.get("author", {})`. -/
def Author.emptyDict : Author := ⟨none, none, none, none, none, none⟩

/-- One element of `data["videos"]`; every field optional. -/
structure Video where
  video_id : Option String
  create_time : Option ℕ
  play_count : Option ℕ
  digg_count : Option ℕ
  comment_count : Option ℕ
  collect_count : Option ℕ
  cover : Option String
  author : Option Author
deriving DecidableEq, Repr

/-- Parsed body of `/api/user/posts`: the `code` field and, when the
`data` key is present, its `videos` list (`data_content.get("videos",
[])` makes an absent `videos` key the same as an empty list). -/
structure PostsBody where
  code : ℤ
  videos : Option (List Video)
deriving Repr

/-- Outcome of one `requests.get` in the retry loop of
`fetch_user_videos`: the three caught exception classes
(`requests.exceptions.Timeout`, `requests.exceptions.RequestException`,
bare `Exception`), or a completed exchange with its HTTP status code and
parsed body. -/
inductive PostsAttempt where
  | timeout
  | netErr
  | otherExn
  | http (status : ℕ) (body : PostsBody)

/-- Python truthiness of an optional integer field: `author.get(k)` is
truthy iff the key is present with a non-zero value. -/
def truthyNat (o : Option ℕ) : Bool := o.getD 0 != 0

/-- One row of the result table built by `fetch_user_videos`
(账号 / 昵称 / 头像 / 关注数 / 粉丝数 / 获赞数 / 总视频数 / 视频链接 /
发布时间 / 播放量 / 点赞 / 评论 / 收藏 / 封面图链接).  `publishedAt`
abstracts the `strftime("%Y-%m-%d %H:%M:%S")` string by the raw
timestamp: the fixed-width format is strictly monotone in the timestamp,
and a falsy `create_time` (absent or `0`), rendered `""`, is `none` and
sorts first, exactly like `""` among the formatted strings. -/
structure PostRecord where
  account : String
  nickname : String
  avatar : String
  followingCount : ℕ
  followerCount : ℕ
  heartCount : ℕ
  videoCount : ℕ
  videoLink : String
  publishedAt : Option ℕ
  playCount : ℕ
  diggCount : ℕ
  commentCount : ℕ
  collectCount : ℕ
  cover : String
deriving DecidableEq, Repr

/-- The 发布时间 cell: `datetime.fromtimestamp(t)... if
video.get("create_time") else ""`, with the formatted string abstracted
by its timestamp. -/
def publishCell (o : Option ℕ) : Option ℕ :=
  match o with
  | some t => if t = 0 then none else some t
  | none => none

/-- Builds one result row from a video, using the separately fetched
profile when `prof? = some ui` (the `if user_info:` branch — the dict is
always non-empty hence truthy) and the video's own inline `author`
fields otherwise. -/
def mkRecord (u : String) (prof? : Option ProfileInfo) (v : Video) : PostRecord :=
  let a := v.author.getD Author.emptyDict
  match prof? with
  | some ui =>
    ⟨u, ui.nickname, ui.avatar, ui.followingCount, ui.followerCount,
     ui.heartCount, ui.videoCount,
     "https://www.tiktok.com/@" ++ u ++ "/video/" ++ v.video_id.getD "",
     publishCell v.create_time,
     v.play_count.getD 0, v.digg_count.getD 0, v.comment_count.getD 0,
     v.collect_count.getD 0, v.cover.getD ""⟩
  | none =>
    ⟨u, a.nickname.getD u, a.avatar.getD "", a.following_count.getD 0,
     a.follower_count.getD 0, a.heart_count.getD 0, a.aweme_count.getD 0,
     "https://www.tiktok.com/@" ++ u ++ "/video/" ++ v.video_id.getD "",
     publishCell v.create_time,
     v.play_count.getD 0, v.digg_count.getD 0, v.comment_count.getD 0,
     v.collect_count.getD 0, v.cover.getD ""⟩

/-- Result of `fetch_user_videos`, instrumented with the number of
`/api/user/posts` requests issued, `time.sleep(1)` backoffs executed,
and `fetch_user_info` calls made. -/
structure FetchVideosResult where
  records : List PostRecord
  cache : Cache
  attemptsUsed : ℕ
  sleeps : ℕ
  profileCalls : ℕ
deriving Repr

/-- What one loop iteration of `fetch_user_videos` decides after its
request completes: return a value now, or (if attempts remain) sleep one
second and retry. -/
inductive StepOutcome where
  | done (records : List PostRecord) (cache : Cache) (profileCalls : ℕ)
  | retry

/-- One iteration of the retry loop of `fetch_user_videos`
(src/streamlit_app.py lines 120-235), minus the retry bookkeeping:
HTTP status check, `code == 0 and "data" in data` check, empty-video
check, the inline-author shortcut (`if not author.get("follower_count")
and not author.get("following_count")`), row construction, and the
`error_code in [-1, -2]` retry test. -/
def attemptStep (u : String) (limit : ℕ) (info : InfoResponse) (cache : Cache) :
    PostsAttempt → StepOutcome
  | .timeout => .retry
  | .netErr => .retry
  | .otherExn => .retry
  | .http status body =>
    if status ≠ 200 then .retry
    else
      match body.videos with
      | some vs =>
        if body.code = 0 then
          match vs.take limit with
          | [] => .done [] cache 0
          | v :: tl =>
            let a := v.author.getD Author.emptyDict
            if truthyNat a.follower_count = false ∧ truthyNat a.following_count = false then
              let p := fetch_user_info cache u info
              .done ((v :: tl).map (mkRecord u (some p.1))) p.2 1
            else
              .done ((v :: tl).map (mkRecord u none)) cache 0
        else if body.code = -1 ∨ body.code = -2 then .retry
        else .done [] cache 0
      | none =>
        if body.code = -1 ∨ body.code = -2 then .retry
        else .done [] cache 0

/-- The retry loop of `fetch_user_videos`: `idx` is the index of the
current attempt and `remaining` the number of retries still allowed
(`attempt < max_retries` in the source is `remaining > 0`). -/
def fetch_user_videos_go (u : String) (limit : ℕ) (info : InfoResponse)
    (attempts : ℕ → PostsAttempt) (cache : Cache) :
    (idx remaining : ℕ) → FetchVideosResult
  | idx, 0 =>
    match attemptStep u limit info cache (attempts idx) with
    | .done recs c pc => ⟨recs, c, 1, 0, pc⟩
    | .retry => ⟨[], cache, 1, 0, 0⟩
  | idx, r + 1 =>
    match attemptStep u limit info cache (attempts idx) with
    | .done recs c pc => ⟨recs, c, 1, 0, pc⟩
    | .retry =>
      let rest := fetch_user_videos_go u limit info attempts cache (idx + 1) r
      ⟨rest.records, rest.cache, rest.attemptsUsed + 1, rest.sleeps + 1, rest.profileCalls⟩

/-- Embeds `fetch_user_videos(username, limit, max_retries)`
(src/streamlit_app.py lines 117-237); the source's default is
`max_retries = 2`. -/
def fetch_user_videos (u : String) (limit : ℕ) (info : InfoResponse)
    (attempts : ℕ → PostsAttempt) (cache : Cache) (max_retries : ℕ) :
    FetchVideosResult :=
  fetch_user_videos_go u limit info attempts cache 0 max_retries

/-- Error conditions of the profile endpoint: any caught exception, or a
body failing `code == 0 and "data" in data`. -/
def errorInfo : InfoResponse → Bool
  | .api 0 (some _) => false
  | _ => true

/-- Error conditions of the posts endpoint: any caught exception
(timeout, network, other), an HTTP status other than 200, or a body
failing `code == 0 and "data" in data`. -/
def errorAttempt : PostsAttempt → Bool
  | .timeout => true
  | .netErr => true
  | .otherExn => true
  | .http status body => status != 200 || !(body.code == 0 && body.videos.isSome)

/-- On any error response the profile fetch produces the all-zero row
(given no cache entry masks the fresh call). -/
theorem fetch_user_info_error (cache : Cache) (u : String) (resp : InfoResponse)
    (hc : cacheGet cache u = none) (he : errorInfo resp = true) :
    (fetch_user_info cache u resp).1 = errorProfile u ∧
    (fetch_user_info cache u resp).2 = cache := by
  simp only [fetch_user_info, hc]
  split
  · simp [errorInfo] at he
  · exact ⟨rfl, rfl⟩

/-- An error attempt makes one loop iteration either retry or return the
empty list without touching the cache. -/
theorem attemptStep_error (u : String) (limit : ℕ) (info : InfoResponse)
    (cache : Cache) (a : PostsAttempt) (he : errorAttempt a = true) :
    attemptStep u limit info cache a = .retry ∨
      attemptStep u limit info cache a = .done [] cache 0 := by
  cases a with
  | timeout => exact Or.inl rfl
  | netErr => exact Or.inl rfl
  | otherExn => exact Or.inl rfl
  | http status body =>
    by_cases hs : status = 200
    · subst hs
      simp only [errorAttempt, bne_self_eq_false, Bool.false_or, Bool.not_eq_true',
        Bool.and_eq_false_iff] at he
      obtain ⟨c, vids⟩ := body
      simp only [attemptStep, ne_eq, not_true_eq_false, if_false, ite_false]
      rcases vids with _ | vs
      · by_cases hc : c = -1 ∨ c = -2 <;> simp [hc]
      · have hc0 : c ≠ 0 := by
          rcases he with h | h
          · intro h0; rw [h0] at h; simp at h
          · simp at h
        simp only [hc0, if_false, ite_false]
        by_cases hc : c = -1 ∨ c = -2 <;> simp [hc]
    · simp [attemptStep, hs]

/-- If every attempt errors, the retry loop ends with no records. -/
theorem fetch_go_all_errors (u : String) (limit : ℕ) (info : InfoResponse)
    (attempts : ℕ → PostsAttempt) (cache : Cache) :
    ∀ remaining idx, (∀ i, errorAttempt (attempts i) = true) →
      (fetch_user_videos_go u limit info attempts cache idx remaining).records = [] := by
  intro remaining
  induction remaining with
  | zero =>
    intro idx h
    rcases attemptStep_error u limit info cache (attempts idx) (h idx) with h1 | h1 <;>
      simp only [fetch_user_videos_go, h1]
  | succ r ih =>
    intro idx h
    rcases attemptStep_error u limit info cache (attempts idx) (h idx) with h1 | h1 <;>
      simp only [fetch_user_videos_go, h1]
    exact ih (idx + 1) h

/-- Claim C4: on every error condition (HTTP failure, API error
response, timeout, network error) the post fetch returns an empty
sequence, and the profile fetch returns a record whose numeric fields
are all zero; neither raises (both are total functions of the modelled
response environment). -/
theorem fetch_errors_degrade_to_defaults :
    ∀ (u : String) (limit : ℕ) (cache : Cache) (info : InfoResponse)
      (attempts : ℕ → PostsAttempt) (max_retries : ℕ),
      (errorInfo info = true → cacheGet cache u = none →
        ((fetch_user_info cache u info).1.followingCount = 0 ∧
         (fetch_user_info cache u info).1.followerCount = 0 ∧
         (fetch_user_info cache u info).1.heartCount = 0 ∧
         (fetch_user_info cache u info).1.videoCount = 0)) ∧
      ((∀ i, errorAttempt (attempts i) = true) →
        (fetch_user_videos u limit info attempts cache max_retries).records = []) := by
  intro u limit cache info attempts max_retries
  constructor
  · intro he hc
    rw [(fetch_user_info_error cache u info hc he).1]
    exact ⟨rfl, rfl, rfl, rfl⟩
  · intro h
    exact fetch_go_all_errors u limit info attempts cache max_retries 0 h

/-- Concrete instantiation of `fetch_errors_degrade_to_defaults`: a
profile fetch hitting a network exception yields the all-zero row, and a
post fetch timing out on all three attempts yields no records. -/
theorem fetch_errors_degrade_to_defaults_witness :
    errorInfo InfoResponse.exn = true ∧
    cacheGet [] "alice" = none ∧
    (fetch_user_info [] "alice" InfoResponse.exn).1.followerCount = 0 ∧
    (fetch_user_videos "alice" 3 InfoResponse.exn (fun _ => PostsAttempt.timeout) [] 2).records = [] :=
  ⟨rfl, rfl,
    ((fetch_errors_degrade_to_defaults "alice" 3 [] InfoResponse.exn
        (fun _ => PostsAttempt.timeout) 2).1 rfl rfl).2.1,
    (fetch_errors_degrade_to_defaults "alice" 3 [] InfoResponse.exn
        (fun _ => PostsAttempt.timeout) 2).2 (fun _ => rfl)⟩

/-! ## Retry policy (claim C5) -/

/-- The transient set enumerated by claim C5 / spec §4.1: timeout,
network error, and the fixed transient API error codes (-1, -2).
An HTTP non-200 response is not in this set. -/
def claimTransientC5 : PostsAttempt → Bool
  | .timeout => true
  | .netErr => true
  | .otherExn => false
  | .http _ body => body.code == -1 || body.code == -2

/-- The retry condition the code actually implements: every caught
exception class, every HTTP non-200 response, and — among parsed
non-success bodies — exactly the API error codes -1 and -2. -/
def codeTransientC5 : PostsAttempt → Bool
  | .timeout => true
  | .netErr => true
  | .otherExn => true
  | .http status body =>
    status != 200 ||
      (!(body.code == 0 && body.videos.isSome) && (body.code == -1 || body.code == -2))

/-- A successful exchange whose leading video carries a truthy inline
follower count short-circuits into the no-profile-call row builder. -/
theorem attemptStep_success_inline (u : String) (limit : ℕ) (info : InfoResponse)
    (cache : Cache) (vs : List Video) (v : Video) (tl : List Video)
    (hvs : vs.take limit = v :: tl)
    (hcond : ¬(truthyNat (v.author.getD Author.emptyDict).follower_count = false ∧
               truthyNat (v.author.getD Author.emptyDict).following_count = false)) :
    attemptStep u limit info cache (.http 200 ⟨0, some vs⟩) =
      .done ((v :: tl).map (mkRecord u none)) cache 0 := by
  simp [attemptStep, hvs, hcond]

/-- A successful exchange whose leading video lacks truthy inline
follower and following counts routes through `fetch_user_info`. -/
theorem attemptStep_success_call (u : String) (limit : ℕ) (info : InfoResponse)
    (cache : Cache) (vs : List Video) (v : Video) (tl : List Video)
    (hvs : vs.take limit = v :: tl)
    (h1 : truthyNat (v.author.getD Author.emptyDict).follower_count = false)
    (h2 : truthyNat (v.author.getD Author.emptyDict).following_count = false) :
    attemptStep u limit info cache (.http 200 ⟨0, some vs⟩) =
      .done ((v :: tl).map (mkRecord u (some (fetch_user_info cache u info).1)))
        (fetch_user_info cache u info).2 1 := by
  simp [attemptStep, hvs, h1, h2]

/-- A successful exchange with no videos returns immediately. -/
theorem attemptStep_success_empty (u : String) (limit : ℕ) (info : InfoResponse)
    (cache : Cache) (vs : List Video) (hvs : vs.take limit = []) :
    attemptStep u limit info cache (.http 200 ⟨0, some vs⟩) = .done [] cache 0 := by
  simp [attemptStep, hvs]

/-- One loop iteration retries exactly on the code's transient set. -/
theorem attemptStep_retry_iff (u : String) (limit : ℕ) (info : InfoResponse)
    (cache : Cache) (a : PostsAttempt) :
    (attemptStep u limit info cache a = .retry) ↔ codeTransientC5 a = true := by
  cases a with
  | timeout => simp [attemptStep, codeTransientC5]
  | netErr => simp [attemptStep, codeTransientC5]
  | otherExn => simp [attemptStep, codeTransientC5]
  | http status body =>
    obtain ⟨c, vids⟩ := body
    by_cases hs : status = 200
    · subst hs
      rcases vids with _ | vs
      · by_cases hc : c = -1 ∨ c = -2
        · rcases hc with rfl | rfl <;> simp [attemptStep, codeTransientC5]
        · rw [not_or] at hc
          simp [attemptStep, codeTransientC5, hc.1, hc.2]
      · by_cases hc0 : c = 0
        · subst hc0
          rcases h : vs.take limit with _ | ⟨v, tl⟩
          · rw [attemptStep_success_empty u limit info cache vs h]
            simp [codeTransientC5]
          · by_cases hcond : truthyNat (v.author.getD Author.emptyDict).follower_count = false ∧
                truthyNat (v.author.getD Author.emptyDict).following_count = false
            · rw [attemptStep_success_call u limit info cache vs v tl h hcond.1 hcond.2]
              simp [codeTransientC5]
            · rw [attemptStep_success_inline u limit info cache vs v tl h hcond]
              simp [codeTransientC5]
        · by_cases hc : c = -1 ∨ c = -2
          · rcases hc with rfl | rfl <;> simp [attemptStep, codeTransientC5]
          · rw [not_or] at hc
            simp [attemptStep, codeTransientC5, hc0, hc.1, hc.2]
    · simp [attemptStep, codeTransientC5, hs]

/-- A `.done` iteration ends the loop at once with one request and no
backoff, whatever the retry budget. -/
theorem fetch_go_done (u : String) (limit : ℕ) (info : InfoResponse)
    (attempts : ℕ → PostsAttempt) (cache : Cache) (idx remaining : ℕ)
    (recs : List PostRecord) (c : Cache) (pc : ℕ)
    (h : attemptStep u limit info cache (attempts idx) = .done recs c pc) :
    fetch_user_videos_go u limit info attempts cache idx remaining =
      ⟨recs, c, 1, 0, pc⟩ := by
  cases remaining <;> simp [fetch_user_videos_go, h]

/-- The loop issues at most `remaining + 1` requests and sleeps exactly
one second before each retry (so backoffs = requests − 1). -/
theorem fetch_go_attempt_bound (u : String) (limit : ℕ) (info : InfoResponse)
    (attempts : ℕ → PostsAttempt) (cache : Cache) :
    ∀ remaining idx,
      (fetch_user_videos_go u limit info attempts cache idx remaining).attemptsUsed ≤
        remaining + 1 ∧
      (fetch_user_videos_go u limit info attempts cache idx remaining).sleeps + 1 =
        (fetch_user_videos_go u limit info attempts cache idx remaining).attemptsUsed := by
  intro remaining
  induction remaining with
  | zero =>
    intro idx
    cases h : attemptStep u limit info cache (attempts idx) <;>
      simp [fetch_user_videos_go, h]
  | succ r ih =>
    intro idx
    have hrec := ih (idx + 1)
    cases h : attemptStep u limit info cache (attempts idx) <;>
      simp [fetch_user_videos_go, h]
    all_goals omega

/-- Counterexample to claim C5 as stated: the first attempt fails with
HTTP status 500 — not a timeout, network error, or transient API code —
yet the fetch retries (a second request is issued) and the second
attempt's videos are returned. -/
def retryAuthor : Author := ⟨some "nick", some "ava", some 5, some 6, some 7, some 8⟩

/-- A concrete video used by the retry counterexample. -/
def retryVideo : Video :=
  ⟨some "v1", some 100, some 1000, some 10, some 2, some 3, some "cov", some retryAuthor⟩

/-- Attempt schedule: HTTP 500 first, then a successful response. -/
def httpRetryAttempts : ℕ → PostsAttempt
  | 0 => .http 500 ⟨0, none⟩
  | _ + 1 => .http 200 ⟨0, some [retryVideo]⟩

/-- Claim C5 is false as stated: an HTTP 500 first attempt is outside
the claim's transient set (timeout / network error / API codes -1, -2),
yet `fetch_user_videos` does not return immediately — it issues a second
request and returns that attempt's records. -/
theorem retry_on_http_error_counterexample :
    claimTransientC5 (httpRetryAttempts 0) = false ∧
    (fetch_user_videos "alice" 3 InfoResponse.exn httpRetryAttempts [] 2).attemptsUsed = 2 ∧
    (fetch_user_videos "alice" 3 InfoResponse.exn httpRetryAttempts [] 2).records.length = 1 := by
  refine ⟨rfl, ?_, ?_⟩ <;> rfl

/-- Claim C5 (amended): the post fetch issues at most max_retries + 1
requests (at most 2 retries at the source's default), with a fixed
1-second backoff before every retry; it retries exactly on the code's
transient set — timeout, network error, unexpected exception, HTTP
non-200, and API error codes -1 and -2 — and any other first-attempt
outcome (including a non-transient API error code) returns immediately
with no retry. -/
theorem retry_policy_amended :
    ∀ (u : String) (limit : ℕ) (info : InfoResponse) (attempts : ℕ → PostsAttempt)
      (cache : Cache) (max_retries : ℕ),
      ((fetch_user_videos u limit info attempts cache max_retries).attemptsUsed ≤
        max_retries + 1) ∧
      ((fetch_user_videos u limit info attempts cache max_retries).sleeps + 1 =
        (fetch_user_videos u limit info attempts cache max_retries).attemptsUsed) ∧
      (codeTransientC5 (attempts 0) = false →
        (fetch_user_videos u limit info attempts cache max_retries).attemptsUsed = 1) ∧
      (codeTransientC5 (attempts 0) = true → 0 < max_retries →
        2 ≤ (fetch_user_videos u limit info attempts cache max_retries).attemptsUsed) := by
  intro u limit info attempts cache max_retries
  refine ⟨(fetch_go_attempt_bound u limit info attempts cache max_retries 0).1,
    (fetch_go_attempt_bound u limit info attempts cache max_retries 0).2, ?_, ?_⟩
  · intro hf
    cases h : attemptStep u limit info cache (attempts 0) with
    | done recs c pc =>
      rw [fetch_user_videos,
        fetch_go_done u limit info attempts cache 0 max_retries recs c pc h]
    | retry =>
      rw [attemptStep_retry_iff u limit info cache (attempts 0)] at h
      rw [h] at hf
      exact absurd hf (by simp)
  · intro ht hmr
    have h : attemptStep u limit info cache (attempts 0) = .retry :=
      (attemptStep_retry_iff u limit info cache (attempts 0)).mpr ht
    obtain ⟨r, rfl⟩ : ∃ r, max_retries = r + 1 :=
      ⟨max_retries - 1, by omega⟩
    have hb := (fetch_go_attempt_bound u limit info attempts cache r (0 + 1)).2
    simp only [fetch_user_videos, fetch_user_videos_go, h]
    omega

/-- Concrete instantiations of `retry_policy_amended`: a non-transient
first outcome (success) returns after one request, and a transient one
(HTTP 500) leads to a second request. -/
def okAttempts : ℕ → PostsAttempt
  | _ => .http 200 ⟨0, some [retryVideo]⟩

/-- Witness for `retry_policy_amended`, discharging both implications at
concrete attempt schedules. -/
theorem retry_policy_amended_witness :
    codeTransientC5 (okAttempts 0) = false ∧
    (fetch_user_videos "alice" 3 InfoResponse.exn okAttempts [] 2).attemptsUsed = 1 ∧
    codeTransientC5 (httpRetryAttempts 0) = true ∧
    2 ≤ (fetch_user_videos "alice" 3 InfoResponse.exn httpRetryAttempts [] 2).attemptsUsed :=
  ⟨rfl,
    (retry_policy_amended "alice" 3 InfoResponse.exn okAttempts [] 2).2.2.1 rfl,
    rfl,
    (retry_policy_amended "alice" 3 InfoResponse.exn httpRetryAttempts [] 2).2.2.2 rfl
      (by omega)⟩

/-! ## Inline-author shortcut (claim C7) -/

/-- Claim C7: on a post fetch whose first attempt succeeds with at least
one video, the separate profile call happens iff the first video's
inline author block lacks truthy follower and following counts (Python
truthiness: a missing or zero count is "lacking"); when the inline block
has them, every produced row is synthesized from its own video's inline
author fields and no profile call occurs. -/
theorem inline_author_skips_profile_call
    (u : String) (limit : ℕ) (info : InfoResponse) (attempts : ℕ → PostsAttempt)
    (cache : Cache) (max_retries : ℕ) (vs : List Video) (v : Video) (tl : List Video)
    (hatt : attempts 0 = .http 200 ⟨0, some vs⟩)
    (hvs : vs.take limit = v :: tl) :
    ((fetch_user_videos u limit info attempts cache max_retries).profileCalls = 1 ↔
      (truthyNat (v.author.getD Author.emptyDict).follower_count = false ∧
       truthyNat (v.author.getD Author.emptyDict).following_count = false)) ∧
    ((truthyNat (v.author.getD Author.emptyDict).follower_count = false ∧
      truthyNat (v.author.getD Author.emptyDict).following_count = false) →
      (fetch_user_videos u limit info attempts cache max_retries).records =
        (v :: tl).map (mkRecord u (some (fetch_user_info cache u info).1))) ∧
    (¬(truthyNat (v.author.getD Author.emptyDict).follower_count = false ∧
       truthyNat (v.author.getD Author.emptyDict).following_count = false) →
      (fetch_user_videos u limit info attempts cache max_retries).profileCalls = 0 ∧
      (fetch_user_videos u limit info attempts cache max_retries).records =
        (v :: tl).map (mkRecord u none)) := by
  by_cases hcond : truthyNat (v.author.getD Author.emptyDict).follower_count = false ∧
      truthyNat (v.author.getD Author.emptyDict).following_count = false
  · have hstep : attemptStep u limit info cache (attempts 0) =
        .done ((v :: tl).map (mkRecord u (some (fetch_user_info cache u info).1)))
          (fetch_user_info cache u info).2 1 := by
      rw [hatt]
      exact attemptStep_success_call u limit info cache vs v tl hvs hcond.1 hcond.2
    rw [fetch_user_videos, fetch_go_done u limit info attempts cache 0 max_retries _ _ _ hstep]
    exact ⟨by simp [hcond], fun _ => rfl, fun hn => absurd hcond hn⟩
  · have hstep : attemptStep u limit info cache (attempts 0) =
        .done ((v :: tl).map (mkRecord u none)) cache 0 := by
      rw [hatt]
      exact attemptStep_success_inline u limit info cache vs v tl hvs hcond
    rw [fetch_user_videos, fetch_go_done u limit info attempts cache 0 max_retries _ _ _ hstep]
    refine ⟨by simp [hcond], fun hc => absurd hc hcond, fun _ => ⟨rfl, rfl⟩⟩

/-- Witness for `inline_author_skips_profile_call` at a concrete
schedule whose first video carries truthy inline counts: no profile
call, rows built from the inline author block. -/
theorem inline_author_skips_profile_call_witness :
    (fetch_user_videos "alice" 3 InfoResponse.exn okAttempts [] 2).profileCalls = 0 ∧
    (fetch_user_videos "alice" 3 InfoResponse.exn okAttempts [] 2).records =
      [retryVideo].map (mkRecord "alice" none) :=
  (inline_author_skips_profile_call "alice" 3 InfoResponse.exn okAttempts [] 2
      [retryVideo] retryVideo [] rfl rfl).2.2 (by decide)

/-! ## Handle validation and the concurrent dispatcher -/

/-- Character class of the handle regex `[a-zA-Z0-9._]` (ASCII letters
and digits, dot, underscore). -/
def handleChar (c : Char) : Bool :=
  c.isAlpha || c.isDigit || c == '.' || c == '_'

/-- Python `str.strip()`, modelled directly on the character list
(ASCII whitespace; Lean's `String.trim` is equivalent on such input but
is defined by well-founded recursion and does not evaluate inside the
kernel). -/
def pyStrip (s : String) : String :=
  ⟨((s.data.dropWhile Char.isWhitespace).reverse.dropWhile Char.isWhitespace).reverse⟩

/-- Embeds `re.match(r'^[a-zA-Z0-9._]{1,24}$', t)`: with both anchors
the match succeeds iff `t` has length 1..24 and every character lies in
the class. -/
def handleRegexMatch (t : String) : Bool :=
  decide (1 ≤ t.length) && decide (t.length ≤ 24) && t.toList.all handleChar

/-- Embeds `validate_username` (src/streamlit_app.py lines 26-34). -/
def validate_username (s : String) : Bool :=
  if s = "" ∨ (pyStrip s).length = 0 then false
  else handleRegexMatch (pyStrip s)

/-- Per-handle environment seen by one dispatcher task: an optional
unexpected exception raised while the task runs (caught by the task's
`try`/`except`), the profile and posts responses the API would serve,
and the status the diagnostic probe would report. -/
structure HandleEnv where
  exn : Option String
  info : InfoResponse
  attempts : ℕ → PostsAttempt
  probeStatus : String

/-- The per-handle outcome tuple accumulated by `process_usernames`,
instrumented with the number of API calls the task issued. -/
structure Outcome where
  username : String
  records : List PostRecord
  success : Bool
  reason : String
  apiCalls : ℕ

/-- Embeds `fetch_single_user_data` (src/streamlit_app.py lines
792-811): any exception becomes a failure outcome; an invalid username
is rejected before the fetch; an empty fetch triggers the diagnostic
probe (`get_account_status_info`, one extra API call). -/
def fetch_single_user_data (env : String → HandleEnv) (limit : ℕ) (u : String) : Outcome :=
  match (env u).exn with
  | some e => ⟨u, [], false, "exception_" ++ e.take 50, 0⟩
  | none =>
    if validate_username u = false then ⟨u, [], false, "invalid_username", 0⟩
    else
      let r := fetch_user_videos u limit (env u).info (env u).attempts [] 2
      if r.records.isEmpty then
        ⟨u, [], false, "no_data_" ++ (env u).probeStatus,
          r.attemptsUsed + r.profileCalls + 1⟩
      else
        ⟨u, r.records, true, "success", r.attemptsUsed + r.profileCalls⟩

/-- Embeds the per-handle accumulation of `process_usernames`
(src/streamlit_app.py lines 829-884).  Completion order of the thread
pool is abstracted by submission order; per-handle outcomes do not
depend on the order, because each task reads only its own handle's
environment (the shared cache is keyed by handle, so distinct handles
never observe each other's entries). -/
def process_usernames (env : String → HandleEnv) (limit : ℕ)
    (usernames : List String) : List Outcome :=
  usernames.map (fetch_single_user_data env limit)

/-- Every outcome names the handle it was produced for. -/
theorem fetch_single_user_data_username (env : String → HandleEnv) (limit : ℕ)
    (u : String) : (fetch_single_user_data env limit u).username = u := by
  unfold fetch_single_user_data
  split
  · rfl
  · split
    · rfl
    · dsimp only
      split <;> rfl

/-- A task's outcome depends only on its own handle's environment. -/
theorem fetch_single_user_data_congr (env env' : String → HandleEnv) (limit : ℕ)
    (v : String) (h : env v = env' v) :
    fetch_single_user_data env limit v = fetch_single_user_data env' limit v := by
  unfold fetch_single_user_data
  rw [h]

/-- Claim C6: the dispatcher yields exactly one outcome pair per
submitted handle; an exception inside one task is converted into a
failure outcome (it never crosses the dispatcher boundary); and one
handle's environment — including a failure — leaves every other
handle's outcome unchanged. -/
theorem dispatcher_outcome_isolation :
    ∀ (env env' : String → HandleEnv) (limit : ℕ) (us : List String) (u : String),
      (process_usernames env limit us).length = us.length ∧
      (∀ i : ℕ,
        ((process_usernames env limit us).get? i).map Outcome.username = us.get? i) ∧
      (∀ e, (env u).exn = some e →
        (fetch_single_user_data env limit u).records = [] ∧
        (fetch_single_user_data env limit u).success = false) ∧
      ((∀ v, v ≠ u → env v = env' v) →
        ∀ (i : ℕ) (v : String), us.get? i = some v → v ≠ u →
          (process_usernames env limit us).get? i =
            (process_usernames env' limit us).get? i) := by
  intro env env' limit us u
  refine ⟨List.length_map us (fetch_single_user_data env limit), ?_, ?_, ?_⟩
  · intro i
    rw [process_usernames, List.get?_map]
    cases h : us.get? i with
    | none => rfl
    | some v => simp [fetch_single_user_data_username]
  · intro e he
    simp [fetch_single_user_data, he]
  · intro hagree i v hv hne
    simp only [process_usernames, List.get?_map, hv, Option.map_some']
    rw [fetch_single_user_data_congr env env' limit v (hagree v hne)]

/-- Environments for the dispatcher witness: a healthy task and one
whose task raises. -/
def okEnv : HandleEnv := ⟨none, InfoResponse.exn, okAttempts, "api_response"⟩

/-- Environment whose task raises an exception. -/
def boomEnv : HandleEnv := ⟨some "boom", InfoResponse.exn, okAttempts, "api_response"⟩

/-- A batch in which only `bob`'s task fails. -/
def cexEnv : String → HandleEnv := fun v => if v = "bob" then boomEnv else okEnv

/-- Witness for `dispatcher_outcome_isolation`: with `bob`'s task
raising, `bob` still yields a failure outcome and `alice`'s outcome is
the same as in a batch where `bob` is healthy. -/
theorem dispatcher_outcome_isolation_witness :
    (cexEnv "bob").exn = some "boom" ∧
    (fetch_single_user_data cexEnv 3 "bob").success = false ∧
    (process_usernames cexEnv 3 ["alice", "bob"]).get? 0 =
      (process_usernames (fun _ => okEnv) 3 ["alice", "bob"]).get? 0 :=
  ⟨rfl,
    ((dispatcher_outcome_isolation cexEnv (fun _ => okEnv) 3 ["alice", "bob"]
        "bob").2.2.1 "boom" rfl).2,
    (dispatcher_outcome_isolation cexEnv (fun _ => okEnv) 3 ["alice", "bob"]
        "bob").2.2.2
      (fun v hv => by simp [cexEnv, hv]) 0 "alice" rfl (by decide)⟩

/-- Claim C8: `validate_username` accepts exactly the strings whose trim
has length 1..24 with every character in `[A-Za-z0-9._]` (non-emptiness
is the length lower bound), and a handle failing the check is rejected
by the task with no API call issued. -/
theorem validate_username_spec :
    (∀ s : String, validate_username s = true ↔
      (1 ≤ (pyStrip s).length ∧ (pyStrip s).length ≤ 24 ∧
        ∀ c ∈ (pyStrip s).toList, handleChar c = true)) ∧
    (∀ (env : String → HandleEnv) (limit : ℕ) (u : String),
      validate_username u = false →
      (fetch_single_user_data env limit u).apiCalls = 0 ∧
      (fetch_single_user_data env limit u).success = false ∧
      ((env u).exn = none →
        (fetch_single_user_data env limit u).reason = "invalid_username")) := by
  constructor
  · intro s
    by_cases h : s = "" ∨ (pyStrip s).length = 0
    · simp only [validate_username, h, if_true]
      constructor
      · intro hf
        exact absurd hf (by simp)
      · rintro ⟨h1, -, -⟩
        rcases h with rfl | h
        · exact absurd h1 (by decide)
        · omega
    · simp only [validate_username, h, if_false, handleRegexMatch]
      simp [and_assoc, List.all_eq_true]
  · intro env limit u hbad
    cases he : (env u).exn with
    | some e =>
      simp [fetch_single_user_data, he]
    | none =>
      simp [fetch_single_user_data, he, hbad]

/-- Witness for `validate_username_spec`: a malformed handle is rejected
with no API call. -/
theorem validate_username_spec_witness :
    validate_username "bad handle!" = false ∧
    (fetch_single_user_data (fun _ => okEnv) 3 "bad handle!").apiCalls = 0 ∧
    (fetch_single_user_data (fun _ => okEnv) 3 "bad handle!").reason =
      "invalid_username" := by
  have hbad : validate_username "bad handle!" = false := by decide
  have h := validate_username_spec.2 (fun _ => okEnv) 3 "bad handle!" hbad
  exact ⟨hbad, h.1, h.2.2 rfl⟩

/-! ## Analytics aggregation (claims C9 and C10) -/

/-- Ordering key of the 发布时间 column as sorted by
`sort_values('发布时间', ascending=False)`: the formatted strings order
as their timestamps, and the empty string (falsy `create_time`) sorts
before every formatted timestamp. -/
def pubTimeLE (a b : Option ℕ) : Bool :=
  match a, b with
  | none, _ => true
  | some _, none => false
  | some x, some y => decide (x ≤ y)

/-- Insertion into a list kept descending by publish time. -/
def insertByTimeDesc (r : PostRecord) : List PostRecord → List PostRecord
  | [] => [r]
  | x :: xs =>
    if pubTimeLE x.publishedAt r.publishedAt then r :: x :: xs
    else x :: insertByTimeDesc r xs

/-- Embeds `user_data.sort_values('发布时间', ascending=False)`. -/
def sortByTimeDesc (l : List PostRecord) : List PostRecord :=
  l.foldr insertByTimeDesc []

/-- Exact rational value of pandas `['播放量'].mean()`. -/
def meanPlay (l : List PostRecord) : ℚ :=
  (l.map (fun r => (r.playCount : ℚ))).sum / (l.length : ℚ)

/-- Embeds the 增长趋势 computation inside `calculate_analytics`
(src/streamlit_app.py lines 405-416): for at least 4 rows, compare the
mean plays of `head(2)` and `tail(2)` of the descending sort; guard the
division by `earliest_2 > 0`; otherwise 0. -/
def calculate_growth_trend (posts : List PostRecord) : ℚ :=
  if 4 ≤ posts.length then
    let sorted := sortByTimeDesc posts
    let latest_2 := meanPlay (sorted.take 2)
    let earliest_2 := meanPlay (sorted.drop (sorted.length - 2))
    if 0 < earliest_2 then (latest_2 - earliest_2) / earliest_2 else 0
  else 0

/-- Claim C9: growthTrend equals (mean play of the latest 2 posts by
publish time − mean play of the earliest 2) / earliest-2 mean when
n ≥ 4 and the earliest-2 mean is positive, and equals exactly 0
whenever n < 4 or the earliest-2 mean is 0. -/
theorem growth_trend_spec :
    ∀ posts : List PostRecord,
      (posts.length < 4 → calculate_growth_trend posts = 0) ∧
      (4 ≤ posts.length →
        (meanPlay ((sortByTimeDesc posts).drop ((sortByTimeDesc posts).length - 2)) = 0 →
          calculate_growth_trend posts = 0) ∧
        (0 < meanPlay ((sortByTimeDesc posts).drop ((sortByTimeDesc posts).length - 2)) →
          calculate_growth_trend posts =
            (meanPlay ((sortByTimeDesc posts).take 2) -
              meanPlay ((sortByTimeDesc posts).drop ((sortByTimeDesc posts).length - 2))) /
              meanPlay ((sortByTimeDesc posts).drop ((sortByTimeDesc posts).length - 2)))) := by
  intro posts
  constructor
  · intro h
    unfold calculate_growth_trend
    rw [if_neg (by omega)]
  · intro h4
    unfold calculate_growth_trend
    rw [if_pos h4]
    dsimp only
    constructor
    · intro h0
      rw [h0]
      norm_num
    · intro hpos
      rw [if_pos hpos]

/-- A row with only the fields claim C9 and C10 exercise filled in. -/
def mkTestPost (t play : ℕ) : PostRecord :=
  ⟨"alice", "Alice", "", 0, 0, 0, 0, "", some t, play, 0, 0, 0, ""⟩

/-- Four rows in shuffled order for the growth-trend witness. -/
def growthPosts : List PostRecord :=
  [mkTestPost 4 40, mkTestPost 1 10, mkTestPost 3 30, mkTestPost 2 20]

/-- Witness for `growth_trend_spec` at four rows with distinct publish
times: the sort puts plays 40, 30, 20, 10 in descending time order, the
earliest-2 mean 15 is positive, and the trend is the stated ratio. -/
theorem growth_trend_spec_witness :
    4 ≤ growthPosts.length ∧
    0 < meanPlay ((sortByTimeDesc growthPosts).drop
        ((sortByTimeDesc growthPosts).length - 2)) ∧
    calculate_growth_trend growthPosts =
      (meanPlay ((sortByTimeDesc growthPosts).take 2) -
        meanPlay ((sortByTimeDesc growthPosts).drop
          ((sortByTimeDesc growthPosts).length - 2))) /
        meanPlay ((sortByTimeDesc growthPosts).drop
          ((sortByTimeDesc growthPosts).length - 2)) := by
  have h4 : 4 ≤ growthPosts.length := by norm_num [growthPosts]
  have hs : sortByTimeDesc growthPosts =
      [mkTestPost 4 40, mkTestPost 3 30, mkTestPost 2 20, mkTestPost 1 10] := rfl
  have hpos : 0 < meanPlay ((sortByTimeDesc growthPosts).drop
      ((sortByTimeDesc growthPosts).length - 2)) := by
    rw [hs]
    norm_num [meanPlay, mkTestPost]
  exact ⟨h4, hpos, ((growth_trend_spec growthPosts).2 h4).2 hpos⟩

/-- The 互动率 column added by `detect_throttling`
(src/streamlit_app.py line 283): engagement over
`播放量.replace(0, 1)`. -/
def throttling_row_rate (r : PostRecord) : ℚ :=
  ((r.diggCount + r.commentCount + r.collectCount : ℕ) : ℚ) /
    (((if r.playCount = 0 then 1 else r.playCount) : ℕ) : ℚ)

/-- The per-post 互动率 recomputed by `calculate_analytics`
(src/streamlit_app.py line 391): engagement over `播放量 + 1`. -/
def analytics_row_rate (r : PostRecord) : ℚ :=
  ((r.diggCount + r.commentCount + r.collectCount : ℕ) : ℚ) /
    ((r.playCount + 1 : ℕ) : ℚ)

/-- 平均互动率 of one account row in `generate_account_throttling_list`
(src/streamlit_app.py line 334): mean of the `detect_throttling`
column. -/
def account_avg_engagement_rate (posts : List PostRecord) : ℚ :=
  (posts.map throttling_row_rate).sum / (posts.length : ℚ)

/-- 互动率 of one account row in `calculate_analytics`
(src/streamlit_app.py line 392): mean of the recomputed column. -/
def analytics_avg_engagement_rate (posts : List PostRecord) : ℚ :=
  (posts.map analytics_row_rate).sum / (posts.length : ℚ)

/-- Pointwise: for a post with at least one play and one engagement,
the analytics rate is strictly below the throttling-table rate. -/
theorem row_rate_lt (r : PostRecord) (hp : 1 ≤ r.playCount)
    (he : 1 ≤ r.diggCount + r.commentCount + r.collectCount) :
    analytics_row_rate r < throttling_row_rate r := by
  unfold analytics_row_rate throttling_row_rate
  rw [if_neg (by omega)]
  have h1 : (0 : ℚ) < ((r.diggCount + r.commentCount + r.collectCount : ℕ) : ℚ) :=
    Nat.cast_pos.mpr (by omega)
  have h2 : (0 : ℚ) < ((r.playCount : ℕ) : ℚ) := Nat.cast_pos.mpr (by omega)
  have h3 : ((r.playCount : ℕ) : ℚ) < ((r.playCount + 1 : ℕ) : ℚ) :=
    Nat.cast_lt.mpr (by omega)
  exact div_lt_div_of_pos_left h1 h2 h3

/-- Summing a strictly smaller map over a non-empty list gives a
strictly smaller sum. -/
theorem map_sum_lt_of_lt (f g : PostRecord → ℚ) :
    ∀ l : List PostRecord, l ≠ [] → (∀ r ∈ l, f r < g r) →
      (l.map f).sum < (l.map g).sum := by
  intro l
  induction l with
  | nil => intro h; exact absurd rfl h
  | cons x xs ih =>
    intro _ h
    rcases eq_or_ne xs [] with rfl | hne
    · simpa using h x (by simp)
    · have hx := h x (by simp)
      have hxs := ih hne (fun r hr => h r (List.mem_cons_of_mem x hr))
      simp only [List.map_cons, List.sum_cons]
      exact add_lt_add hx hxs

/-- Claim C10: the verdict table averages engagement/(max(play,1)) per
post while the analytics table averages engagement/(play+1); for any
post with at least one play and positive engagement the two per-post
values differ, so on such posts the two tables report different average
engagement rates. -/
theorem engagement_rate_discrepancy :
    (∀ r : PostRecord, 1 ≤ r.playCount →
      1 ≤ r.diggCount + r.commentCount + r.collectCount →
      throttling_row_rate r ≠ analytics_row_rate r) ∧
    (∀ posts : List PostRecord, posts ≠ [] →
      (∀ r ∈ posts, 1 ≤ r.playCount ∧
        1 ≤ r.diggCount + r.commentCount + r.collectCount) →
      account_avg_engagement_rate posts ≠ analytics_avg_engagement_rate posts) := by
  constructor
  · intro r hp he
    exact (row_rate_lt r hp he).ne'
  · intro posts hne h
    have hsum := map_sum_lt_of_lt analytics_row_rate throttling_row_rate posts hne
      (fun r hr => row_rate_lt r (h r hr).1 (h r hr).2)
    have hlen : (0 : ℚ) < (posts.length : ℚ) :=
      Nat.cast_pos.mpr (List.length_pos.mpr hne)
    have : analytics_avg_engagement_rate posts < account_avg_engagement_rate posts := by
      unfold analytics_avg_engagement_rate account_avg_engagement_rate
      exact div_lt_div_of_pos_right hsum hlen
    exact this.ne'

/-- Witness for `engagement_rate_discrepancy`: a single post with 10
plays and 5 likes gives per-post rates 5/10 versus 5/11 and therefore
different table averages. -/
theorem engagement_rate_discrepancy_witness :
    1 ≤ (mkTestPost 1 10).playCount ∧
    throttling_row_rate { mkTestPost 1 10 with diggCount := 5 } ≠
      analytics_row_rate { mkTestPost 1 10 with diggCount := 5 } ∧
    account_avg_engagement_rate [{ mkTestPost 1 10 with diggCount := 5 }] ≠
      analytics_avg_engagement_rate [{ mkTestPost 1 10 with diggCount := 5 }] := by
  refine ⟨by decide, ?_, ?_⟩
  · exact engagement_rate_discrepancy.1 _ (by decide) (by decide)
  · refine engagement_rate_discrepancy.2 _ (by simp) ?_
    intro r hr
    rw [List.mem_singleton] at hr
    subst hr
    exact ⟨by decide, by decide⟩

end AccountAnalysis
